import Mathlib

/-!
# Verification of `evaluator_engine` (src/evaluator.py)

Shallow embedding of the scoring/aggregation core of
`OptimizedAnswerEvaluator.evaluate_answer` and its helpers
(`_get_weights`, `_generate_remarks`, `_generate_suggestions`).

Modelling conventions:
* Python numbers (ints and floats) are modelled as exact rationals `ℚ`;
  `round(x, n)` is modelled as round-half-to-even on rationals
  (`pyRound`), matching Python's documented tie-breaking rule.
* The JSON value produced by `json.loads` is modelled by the inductive
  type `JValue`; `json.loads` itself is an external library call, so the
  evaluator is analysed as a function of the question data together with
  the parse outcome (`Option JValue`, `none` = `json.JSONDecodeError`).
* Python runtime exceptions are modelled by the `PyError` type and
  `Except PyError`; an uncaught exception is an `Except.error` result.
* `str.lower` is modelled on ASCII via `Char.toLower` (all strings the
  program compares are ASCII).
-/

/-- A parsed JSON value (the possible results of `json.loads`).
Objects are association lists; `lookupField` gives Python-dict
semantics (a later duplicate key shadows an earlier one). -/
inductive JValue where
  | null
  | bool (b : Bool)
  | num (q : ℚ)
  | str (s : String)
  | arr (elems : List JValue)
  | obj (fields : List (String × JValue))
deriving Repr

/-- Python exception kinds that the evaluator code can raise. -/
inductive PyError where
  | jsonDecodeError
  | keyError (key : String)
  | attributeError
  | typeError
  | indexError
  | zeroDivisionError
deriving Repr, DecidableEq

/-- Python-dict lookup on a parsed JSON object: the last binding of a
key wins, as in `json.loads`. -/
def lookupField (fs : List (String × JValue)) (key : String) : Option JValue :=
  match fs with
  | [] => none
  | (k, v) :: rest =>
    match lookupField rest key with
    | some x => some x
    | none => if k = key then some v else none

/-- `v.get(key, dflt)`: defaulting lookup on a dict; calling `.get` on a
non-dict raises `AttributeError`. -/
def dictGet (v : JValue) (key : String) (dflt : JValue) : Except PyError JValue :=
  match v with
  | .obj fs => .ok ((lookupField fs key).getD dflt)
  | _ => .error .attributeError

/-- `v[key]`: subscription on a dict; a missing key raises `KeyError`,
subscripting a non-dict with a string raises `TypeError`. -/
def dictIndex (v : JValue) (key : String) : Except PyError JValue :=
  match v with
  | .obj fs =>
    match lookupField fs key with
    | some x => .ok x
    | none => .error (.keyError key)
  | _ => .error .typeError

/-- Python truthiness (`if v:`) of a JSON value. -/
def jtruthy : JValue → Bool
  | .null => false
  | .bool b => b
  | .num q => decide (q ≠ 0)
  | .str s => decide (s ≠ "")
  | .arr xs => !xs.isEmpty
  | .obj fs => !fs.isEmpty

/-- Numeric coercion at an arithmetic use site: Python `bool` is an
`int`; any non-numeric operand makes the surrounding arithmetic
expression raise `TypeError`. -/
def jnum : JValue → Except PyError ℚ
  | .num q => .ok q
  | .bool b => .ok (if b then 1 else 0)
  | _ => .error .typeError

/-- `str(v)` as used inside f-string holes. Strings, `None` and booleans
follow Python exactly; the rendering of numbers and containers is
abstracted (no code path in this development formats those). -/
def pyStr : JValue → String
  | .str s => s
  | .null => "None"
  | .bool true => "True"
  | .bool false => "False"
  | .num q => toString q
  | .arr _ => "<list>"
  | .obj _ => "<dict>"

/-- `v[:n]` slicing (lists and strings; anything else raises
`TypeError`). -/
def pySlice (v : JValue) (n : ℕ) : Except PyError JValue :=
  match v with
  | .arr xs => .ok (.arr (xs.take n))
  | .str s => .ok (.str ⟨s.toList.take n⟩)
  | _ => .error .typeError

/-- `v[0]` indexing (lists and strings; empty raises `IndexError`,
anything else `TypeError`). -/
def pyIndex0 (v : JValue) : Except PyError JValue :=
  match v with
  | .arr (x :: _) => .ok x
  | .arr [] => .error .indexError
  | .str s =>
    match s.toList with
    | c :: _ => .ok (.str (String.singleton c))
    | [] => .error .indexError
  | _ => .error .typeError

/-- Each element of a joined iterable must be a string
(`TypeError` otherwise), as in `str.join`. -/
def jvalAsStr : JValue → Except PyError String
  | .str s => .ok s
  | _ => .error .typeError

/-- Coerce a list of JSON values to strings, failing at the first
non-string as `str.join` does. -/
def jStrList : List JValue → Except PyError (List String)
  | [] => .ok []
  | x :: xs => do
    let s ← jvalAsStr x
    let rest ← jStrList xs
    .ok (s :: rest)

/-- `sep.join(v)`: join a list of strings (or the characters of a
string) with a separator. -/
def pyJoin (sep : String) (v : JValue) : Except PyError String :=
  match v with
  | .arr xs => do
    let ss ← jStrList xs
    .ok (String.intercalate sep ss)
  | .str s => .ok (String.intercalate sep (s.toList.map String.singleton))
  | _ => .error .typeError

/-- Python float division; a zero denominator raises
`ZeroDivisionError`. -/
def pyDiv (a b : ℚ) : Except PyError ℚ :=
  if b = 0 then .error .zeroDivisionError else .ok (a / b)

/-- Round-half-to-even to an integer (Python's `round` tie rule). -/
def roundHalfEven (q : ℚ) : ℤ :=
  let f := ⌊q⌋
  let r := q - (f : ℚ)
  if r < 1 / 2 then f
  else if 1 / 2 < r then f + 1
  else if f % 2 = 0 then f else f + 1

/-- `round(x, n)` on our exact-rational model of Python numbers. -/
def pyRound (x : ℚ) (n : ℕ) : ℚ :=
  (roundHalfEven (x * (10 : ℚ) ^ n) : ℚ) / (10 : ℚ) ^ n

/-- `str.lower` restricted to ASCII (all compared strings are ASCII). -/
def pyLower (s : String) : String := ⟨s.toList.map Char.toLower⟩

/-- Boolean list-prefix test used to implement substring containment. -/
def startsList : List Char → List Char → Bool
  | [], _ => true
  | _ :: _, [] => false
  | a :: as, b :: bs => a = b && startsList as bs

/-- Membership of `needle` as a contiguous run of `hay`. -/
def hasSub (needle : List Char) : List Char → Bool
  | [] => needle.isEmpty
  | c :: cs => startsList needle (c :: cs) || hasSub needle cs

/-- Python's `needle in hay` substring test. -/
def strContains (hay needle : String) : Bool := hasSub needle.toList hay.toList

/-- The four scoring weights (`_get_weights` result). -/
structure WeightSet where
  intent : ℚ
  vocabulary : ℚ
  spelling : ℚ
  grammar : ℚ
deriving Repr, DecidableEq

/-- Default weights of `_get_weights` (src/evaluator.py lines 236-241). -/
def baseWeights : WeightSet := ⟨40, 25, 15, 20⟩

/-- The difficulty adjustment of `_get_weights` (lines 244-247); expects
an already-lowercased difficulty. -/
def applyDifficulty (difficulty : String) (w : WeightSet) : WeightSet :=
  if difficulty = "easy" then
    { w with spelling := 20, grammar := 25, vocabulary := 20, intent := 35 }
  else if difficulty = "hard" then
    { w with intent := 50, vocabulary := 25, spelling := 10, grammar := 15 }
  else w

/-- The context adjustment of `_get_weights` (lines 250-255); expects an
already-lowercased context. -/
def applyContext (context : String) (w : WeightSet) : WeightSet :=
  if strContains context "comprehension" || strContains context "reading" then
    { w with intent := 50, vocabulary := 25, spelling := 10, grammar := 15 }
  else if strContains context "spelling" then
    { w with spelling := 35, intent := 30 }
  else if strContains context "grammar" then
    { w with grammar := 35, intent := 30 }
  else w

/-- `OptimizedAnswerEvaluator._get_weights` (src/evaluator.py
lines 230-257): lowercase both inputs, apply the difficulty rule, then
the first matching context rule. -/
def _get_weights (difficulty context : String) : WeightSet :=
  applyContext (pyLower context) (applyDifficulty (pyLower difficulty) baseWeights)

/-- The question record passed to `evaluate_answer`; `none` models an
absent key, so `question_data.get(k, dflt)` is `Option.getD`.
(`question_text` and `correct_answer` only feed the LLM prompt, which is
outside the scoring core.) -/
structure QuestionData where
  question_id : Option String
  context : Option String
  difficulty : Option String
  max_score : Option ℚ

/-- The `intent_analysis` block of the returned dict
(src/evaluator.py lines 201-207); auxiliary fields are stored as the
raw JSON values the code copies over. -/
structure IntentAnalysis where
  intent_match_score : ℚ
  understood_concept : JValue
  key_concepts_identified : JValue
  key_concepts_missed : JValue
  reasoning : JValue
deriving Repr

/-- The `vocabulary_analysis` block (lines 208-213). -/
structure VocabularyAnalysis where
  vocabulary_score : ℚ
  appropriate_words : JValue
  suggested_improvements : JValue
  reasoning : JValue
deriving Repr

/-- The `spelling_analysis` block (lines 214-219). -/
structure SpellingAnalysis where
  spelling_score : ℚ
  misspelled_words : JValue
  phonetic_attempts : JValue
  reasoning : JValue
deriving Repr

/-- The `grammar_analysis` block (lines 220-225). -/
structure GrammarAnalysis where
  grammar_score : ℚ
  errors : JValue
  strengths : JValue
  reasoning : JValue
deriving Repr

/-- The evaluation record returned by `evaluate_answer`
(lines 195-228); `partial_scores` is flattened into four fields. -/
structure EvalResult where
  question_id : String
  final_score : ℚ
  max_score : ℚ
  percentage : ℚ
  partial_scores_intent : ℚ
  partial_scores_vocabulary : ℚ
  partial_scores_spelling : ℚ
  partial_scores_grammar : ℚ
  intent_analysis : IntentAnalysis
  vocabulary_analysis : VocabularyAnalysis
  spelling_analysis : SpellingAnalysis
  grammar_analysis : GrammarAnalysis
  remarks : String
  suggestions : String
deriving Repr

/-- The fixed fallback judgment substituted when JSON parsing fails
(src/evaluator.py lines 159-164). -/
def fallbackResult : JValue := .obj
  [("intent", .obj [("score", .num 50), ("understood", .bool true),
      ("concepts_right", .arr []), ("concepts_missed", .arr []),
      ("note", .str "Parse error")]),
   ("vocabulary", .obj [("score", .num 50), ("good_words", .arr []),
      ("improve", .arr []), ("note", .str "Parse error")]),
   ("spelling", .obj [("score", .num 50), ("errors", .arr []),
      ("phonetic_tries", .arr []), ("note", .str "Parse error")]),
   ("grammar", .obj [("score", .num 50), ("errors", .arr []),
      ("strengths", .arr []), ("note", .str "Parse error")])]

/-- The `try` block of lines 140-165: on `json.loads` failure (`none`)
or a `KeyError`, substitute `fallbackResult` with all four scores 50;
any other exception (notably the `AttributeError` from calling `.get`
on a non-dict) is NOT caught and propagates. Returns the parsed (or
fallback) result together with the four raw score values. -/
def tryParse (parsed : Option JValue) :
    Except PyError (JValue × JValue × JValue × JValue × JValue) :=
  let attempt : Except PyError (JValue × JValue × JValue × JValue × JValue) :=
    match parsed with
    | none => .error .jsonDecodeError
    | some result => do
      let intent_score ← dictGet result "intent" (.obj []) >>= (dictGet · "score" (.num 0))
      let vocab_score ← dictGet result "vocabulary" (.obj []) >>= (dictGet · "score" (.num 0))
      let spelling_score ← dictGet result "spelling" (.obj []) >>= (dictGet · "score" (.num 0))
      let grammar_score ← dictGet result "grammar" (.obj []) >>= (dictGet · "score" (.num 0))
      .ok (result, intent_score, vocab_score, spelling_score, grammar_score)
  match attempt with
  | .error .jsonDecodeError =>
    .ok (fallbackResult, .num 50, .num 50, .num 50, .num 50)
  | .error (.keyError _) =>
    .ok (fallbackResult, .num 50, .num 50, .num 50, .num 50)
  | other => other

/-- `weighted_avg` of lines 171-176. -/
def weighted_avg_of (i v s g : ℚ) (w : WeightSet) : ℚ :=
  (i * w.intent + v * w.vocabulary + s * w.spelling + g * w.grammar) / 100

/-- `final_score` of line 179. -/
def final_score_of (weighted_avg max_score : ℚ) : ℚ :=
  weighted_avg / 100 * max_score

/-- One entry of `partial_scores` (lines 182-187). -/
def partial_score_of (score weight max_score : ℚ) : ℚ :=
  pyRound (score / 100 * (weight / 100) * max_score) 2

/-- `OptimizedAnswerEvaluator._generate_remarks` (lines 259-280). -/
def _generate_remarks (percentage : ℚ) (result : JValue) :
    Except PyError String := do
  let tone :=
    if percentage ≥ 90 then "Excellent work!"
    else if percentage ≥ 75 then "Great job!"
    else if percentage ≥ 60 then "Good effort!"
    else if percentage ≥ 40 then "Nice try!"
    else "Keep practicing!"
  let intent ← dictIndex result "intent"
  let understood ← dictGet intent "understood" .null
  let spelling ← dictIndex result "spelling"
  let phonetic ← dictGet spelling "phonetic_tries" .null
  let remarks := [tone]
    ++ (if jtruthy understood then ["You understood the main idea."] else [])
    ++ (if jtruthy phonetic then ["Good phonetic spelling attempts!"] else [])
  .ok (String.intercalate " " remarks)

/-- `OptimizedAnswerEvaluator._generate_suggestions` (lines 282-307):
four fragment rules in fixed order, each included only when its source
is truthy, then the first three joined by `" | "`. -/
def _generate_suggestions (result : JValue) : Except PyError String := do
  let intent ← dictIndex result "intent"
  let missed ← dictGet intent "concepts_missed" (.arr [])
  let s1 ←
    if jtruthy missed then do
      let sliced ← pySlice missed 2
      let joined ← pyJoin ", " sliced
      pure ["Include: " ++ joined]
    else pure []
  let vocabulary ← dictIndex result "vocabulary"
  let improve ← dictGet vocabulary "improve" (.arr [])
  let s2 ←
    if jtruthy improve then do
      let first ← pyIndex0 improve
      pure ["Word tip: " ++ pyStr first]
    else pure []
  let spelling ← dictIndex result "spelling"
  let errors ← dictGet spelling "errors" (.arr [])
  let s3 ←
    if jtruthy errors then do
      let err ← pyIndex0 errors
      let w ← dictGet err "word" .null
      let c ← dictGet err "correct" .null
      pure ["Spelling: '" ++ pyStr w ++ "' → '" ++ pyStr c ++ "'"]
    else pure []
  let grammar ← dictIndex result "grammar"
  let grammar_errors ← dictGet grammar "errors" (.arr [])
  let s4 ←
    if jtruthy grammar_errors then do
      let e0 ← pyIndex0 grammar_errors
      let fix ← dictGet e0 "fix" (.str "Check structure")
      pure ["Grammar: " ++ pyStr fix]
    else pure []
  let suggestions := s1 ++ s2 ++ s3 ++ s4
  .ok (if suggestions.isEmpty then "Keep up the good work!"
       else String.intercalate " | " (suggestions.take 3))

/-- The `intent_analysis` assembly (lines 201-207): `result["intent"]`
subscription (KeyError on a missing key) followed by defaulting gets. -/
def build_intent_analysis (result : JValue) (score : ℚ) :
    Except PyError IntentAnalysis := do
  let d ← dictIndex result "intent"
  let u ← dictGet d "understood" (.bool true)
  let cr ← dictGet d "concepts_right" (.arr [])
  let cm ← dictGet d "concepts_missed" (.arr [])
  let note ← dictGet d "note" (.str "")
  .ok ⟨score, u, cr, cm, note⟩

/-- The `vocabulary_analysis` assembly (lines 208-213). -/
def build_vocabulary_analysis (result : JValue) (score : ℚ) :
    Except PyError VocabularyAnalysis := do
  let d ← dictIndex result "vocabulary"
  let gw ← dictGet d "good_words" (.arr [])
  let imp ← dictGet d "improve" (.arr [])
  let note ← dictGet d "note" (.str "")
  .ok ⟨score, gw, imp, note⟩

/-- The `spelling_analysis` assembly (lines 214-219). -/
def build_spelling_analysis (result : JValue) (score : ℚ) :
    Except PyError SpellingAnalysis := do
  let d ← dictIndex result "spelling"
  let errs ← dictGet d "errors" (.arr [])
  let ph ← dictGet d "phonetic_tries" (.arr [])
  let note ← dictGet d "note" (.str "")
  .ok ⟨score, errs, ph, note⟩

/-- The `grammar_analysis` assembly (lines 220-225). -/
def build_grammar_analysis (result : JValue) (score : ℚ) :
    Except PyError GrammarAnalysis := do
  let d ← dictIndex result "grammar"
  let errs ← dictGet d "errors" (.arr [])
  let st ← dictGet d "strengths" (.arr [])
  let note ← dictGet d "note" (.str "")
  .ok ⟨score, errs, st, note⟩

/-- Lines 167-228 of `evaluate_answer`, after the parse stage has
produced `result` and the four numeric scores: weights, weighted
average, final score, partial scores, the `final_score / max_score`
division (uncaught `ZeroDivisionError` when `max_score` is 0),
remarks, suggestions, and result assembly. -/
def aggregate (q : QuestionData) (result : JValue) (i v s g : ℚ) :
    Except PyError EvalResult := do
  let question_id := q.question_id.getD ""
  let context := q.context.getD ""
  let difficulty := q.difficulty.getD "Medium"
  let max_score := q.max_score.getD 1
  let weights := _get_weights difficulty context
  let weighted_avg := weighted_avg_of i v s g weights
  let final_score := final_score_of weighted_avg max_score
  let partial_intent := partial_score_of i weights.intent max_score
  let partial_vocab := partial_score_of v weights.vocabulary max_score
  let partial_spelling := partial_score_of s weights.spelling max_score
  let partial_grammar := partial_score_of g weights.grammar max_score
  let ratio ← pyDiv final_score max_score
  let percentage := ratio * 100
  let remarks ← _generate_remarks percentage result
  let suggestions ← _generate_suggestions result
  let ia ← build_intent_analysis result i
  let va ← build_vocabulary_analysis result v
  let sa ← build_spelling_analysis result s
  let ga ← build_grammar_analysis result g
  .ok { question_id := question_id
        final_score := pyRound final_score 2
        max_score := max_score
        percentage := pyRound percentage 1
        partial_scores_intent := partial_intent
        partial_scores_vocabulary := partial_vocab
        partial_scores_spelling := partial_spelling
        partial_scores_grammar := partial_grammar
        intent_analysis := ia
        vocabulary_analysis := va
        spelling_analysis := sa
        grammar_analysis := ga
        remarks := remarks
        suggestions := suggestions }

/-- `evaluate_answer` from the parse outcome on: the `try` block
(fallback on parse failure), numeric coercion of the four scores (the
first non-numeric score raises `TypeError` at the weighted-average
expression, line 171), then aggregation. `parsed` is the outcome of
`json.loads` on the fence-stripped response content (`none` models
`json.JSONDecodeError`). -/
def evaluateParsed (q : QuestionData) (parsed : Option JValue) :
    Except PyError EvalResult := do
  let (result, iJ, vJ, sJ, gJ) ← tryParse parsed
  let i ← jnum iJ
  let v ← jnum vJ
  let s ← jnum sJ
  let g ← jnum gJ
  aggregate q result i v s g

/-- The markdown-fence stripping of lines 142-147: trim, and when the
content starts with a fence, keep the text between the first two
fences, dropping an optional leading `json` tag. -/
def stripFences (raw : String) : String :=
  let content := raw.trim
  if content.startsWith "```" then
    let content := (content.splitOn "```").getD 1 ""
    let content := if content.startsWith "json" then content.drop 4 else content
    content.trim
  else content

/-- `OptimizedAnswerEvaluator.evaluate_answer` (lines 66-228) as a
function of the question data, the raw assessor response content, and
the behaviour of the external `json.loads` on the stripped content. -/
def evaluate_answer (q : QuestionData) (raw : String)
    (jsonLoads : String → Option JValue) : Except PyError EvalResult :=
  evaluateParsed q (jsonLoads (stripFences raw))

/-- A well-formed four-dimension judgment used as a concrete input. -/
def jC1 : JValue := .obj
  [("intent", .obj [("score", .num 80), ("understood", .bool true),
      ("concepts_right", .arr []), ("concepts_missed", .arr []),
      ("note", .str "fine")]),
   ("vocabulary", .obj [("score", .num 70), ("good_words", .arr []),
      ("improve", .arr []), ("note", .str "fine")]),
   ("spelling", .obj [("score", .num 60), ("errors", .arr []),
      ("phonetic_tries", .arr []), ("note", .str "fine")]),
   ("grammar", .obj [("score", .num 90), ("errors", .arr []),
      ("strengths", .arr []), ("note", .str "fine")])]

/-- The end-to-end judgment of the spec's scenario: scores
intent 80, vocabulary 70, spelling 60, grammar 90. -/
def jC5 : JValue := .obj
  [("intent", .obj [("score", .num 80), ("understood", .bool true),
      ("concepts_right", .arr [.str "water cycle"]), ("concepts_missed", .arr []),
      ("note", .str "good")]),
   ("vocabulary", .obj [("score", .num 70), ("good_words", .arr []),
      ("improve", .arr []), ("note", .str "ok")]),
   ("spelling", .obj [("score", .num 60), ("errors", .arr []),
      ("phonetic_tries", .arr []), ("note", .str "ok")]),
   ("grammar", .obj [("score", .num 90), ("errors", .arr []),
      ("strengths", .arr []), ("note", .str "ok")])]

/-- Question of the spec's end-to-end scenario: difficulty "Medium",
empty context, `max_score` 10. -/
def qC5 : QuestionData := ⟨some "q5", some "", some "Medium", some 10⟩

/-- A judgment whose intent score 150 is outside [0, 100]. -/
def jC7 : JValue := .obj
  [("intent", .obj [("score", .num 150), ("understood", .bool true),
      ("concepts_right", .arr []), ("concepts_missed", .arr []),
      ("note", .str "x")]),
   ("vocabulary", .obj [("score", .num 0), ("good_words", .arr []),
      ("improve", .arr []), ("note", .str "x")]),
   ("spelling", .obj [("score", .num 0), ("errors", .arr []),
      ("phonetic_tries", .arr []), ("note", .str "x")]),
   ("grammar", .obj [("score", .num 0), ("errors", .arr []),
      ("strengths", .arr []), ("note", .str "x")])]

/-- A judgment with intent score 30.75 (and 0 elsewhere), chosen so
that rounding `final_score` to 2 decimals moves the percentage: the
raw final score is 0.123 of a `max_score` of 1. -/
def jC8 : JValue := .obj
  [("intent", .obj [("score", .num 30.75), ("understood", .bool true),
      ("concepts_right", .arr []), ("concepts_missed", .arr []),
      ("note", .str "x")]),
   ("vocabulary", .obj [("score", .num 0), ("good_words", .arr []),
      ("improve", .arr []), ("note", .str "x")]),
   ("spelling", .obj [("score", .num 0), ("errors", .arr []),
      ("phonetic_tries", .arr []), ("note", .str "x")]),
   ("grammar", .obj [("score", .num 0), ("errors", .arr []),
      ("strengths", .arr []), ("note", .str "x")])]

/-- Question with the default-scale `max_score` of 1. -/
def qC8 : QuestionData := ⟨some "q8", some "", some "Medium", some 1⟩

/-- A spelling error record as produced by the assessor. -/
def mkSpellErr (p : String × String) : JValue :=
  .obj [("word", .str p.1), ("correct", .str p.2)]

/-- A grammar error record; `none` models an absent `fix` key. -/
def mkGrammarErr (o : Option String) : JValue :=
  match o with
  | some f => .obj [("type", .str "tense"), ("fix", .str f)]
  | none => .obj [("type", .str "tense")]

/-- A parsed judgment with the four auxiliary sources that
`_generate_suggestions` inspects. -/
def mkSuggestInput (missed improve : List String)
    (se : List (String × String)) (ge : List (Option String)) : JValue := .obj
  [("intent", .obj [("score", .num 50), ("concepts_missed", .arr (missed.map .str))]),
   ("vocabulary", .obj [("score", .num 50), ("improve", .arr (improve.map .str))]),
   ("spelling", .obj [("score", .num 50), ("errors", .arr (se.map mkSpellErr))]),
   ("grammar", .obj [("score", .num 50), ("errors", .arr (ge.map mkGrammarErr))])]

/-- The suggestion fragments of `_generate_suggestions` in their fixed
order, written against the source lists. -/
def suggestionFragments (missed improve : List String)
    (se : List (String × String)) (ge : List (Option String)) : List String :=
  (if missed.isEmpty then [] else
    ["Include: " ++ String.intercalate ", " (missed.take 2)])
  ++ (if improve.isEmpty then [] else ["Word tip: " ++ improve.headD ""])
  ++ (if se.isEmpty then [] else
    ["Spelling: '" ++ (se.headD ("", "")).1 ++ "' → '" ++ (se.headD ("", "")).2 ++ "'"])
  ++ (if ge.isEmpty then [] else
    ["Grammar: " ++ (ge.headD none).getD "Check structure"])

/-- Success characterization of `evaluateParsed`: when every fallible
stage succeeds, the returned record is exactly the assembly of
lines 195-228. -/
theorem evaluateParsed_ok_of (q : QuestionData) (parsed : Option JValue)
    (result jI jV jS jG : JValue) (i v s g : ℚ) (w : WeightSet) (m : ℚ)
    (rem sug : String) (ia : IntentAnalysis) (va : VocabularyAnalysis)
    (sa : SpellingAnalysis) (ga : GrammarAnalysis)
    (h1 : tryParse parsed = .ok (result, jI, jV, jS, jG))
    (h2 : jnum jI = .ok i) (h3 : jnum jV = .ok v)
    (h4 : jnum jS = .ok s) (h5 : jnum jG = .ok g)
    (hw : w = _get_weights (q.difficulty.getD "Medium") (q.context.getD ""))
    (hmdef : m = q.max_score.getD 1) (hm : m ≠ 0)
    (hrem : _generate_remarks
      (final_score_of (weighted_avg_of i v s g w) m / m * 100) result = .ok rem)
    (hsug : _generate_suggestions result = .ok sug)
    (hia : build_intent_analysis result i = .ok ia)
    (hva : build_vocabulary_analysis result v = .ok va)
    (hsa : build_spelling_analysis result s = .ok sa)
    (hga : build_grammar_analysis result g = .ok ga) :
    evaluateParsed q parsed = .ok
      { question_id := q.question_id.getD ""
        final_score := pyRound (final_score_of (weighted_avg_of i v s g w) m) 2
        max_score := m
        percentage := pyRound (final_score_of (weighted_avg_of i v s g w) m / m * 100) 1
        partial_scores_intent := partial_score_of i w.intent m
        partial_scores_vocabulary := partial_score_of v w.vocabulary m
        partial_scores_spelling := partial_score_of s w.spelling m
        partial_scores_grammar := partial_score_of g w.grammar m
        intent_analysis := ia
        vocabulary_analysis := va
        spelling_analysis := sa
        grammar_analysis := ga
        remarks := rem
        suggestions := sug } := by
  subst hw hmdef
  unfold evaluateParsed aggregate
  rw [h1]
  simp only [bind, Except.bind]
  rw [h2]
  simp only [bind, Except.bind]
  rw [h3]
  simp only [bind, Except.bind]
  rw [h4]
  simp only [bind, Except.bind]
  rw [h5]
  simp only [bind, Except.bind, pyDiv, if_neg hm]
  rw [hrem]
  simp only [bind, Except.bind]
  rw [hsug]
  simp only [bind, Except.bind]
  rw [hia]
  simp only [bind, Except.bind]
  rw [hva]
  simp only [bind, Except.bind]
  rw [hsa]
  simp only [bind, Except.bind]
  rw [hga]

/-- Inversion: a successful run of `evaluateParsed` determines the
numeric fields of the result from the extracted scores, the weights and
the (guarded nonzero) `max_score`. -/
theorem evaluateParsed_fields (q : QuestionData) (parsed : Option JValue)
    (result jI jV jS jG : JValue) (i v s g : ℚ) (r : EvalResult)
    (h1 : tryParse parsed = .ok (result, jI, jV, jS, jG))
    (h2 : jnum jI = .ok i) (h3 : jnum jV = .ok v)
    (h4 : jnum jS = .ok s) (h5 : jnum jG = .ok g)
    (hok : evaluateParsed q parsed = .ok r) :
    q.max_score.getD 1 ≠ 0
    ∧ r.max_score = q.max_score.getD 1
    ∧ r.final_score = pyRound (final_score_of (weighted_avg_of i v s g
        (_get_weights (q.difficulty.getD "Medium") (q.context.getD "")))
        (q.max_score.getD 1)) 2
    ∧ r.percentage = pyRound (final_score_of (weighted_avg_of i v s g
        (_get_weights (q.difficulty.getD "Medium") (q.context.getD "")))
        (q.max_score.getD 1) / (q.max_score.getD 1) * 100) 1 := by
  simp only [evaluateParsed, aggregate, h1, h2, h3, h4, h5, bind, Except.bind] at hok
  by_cases hm : q.max_score.getD 1 = 0
  · simp only [pyDiv, if_pos hm] at hok
    cases hok
  · simp only [pyDiv, if_neg hm] at hok
    split at hok
    · cases hok
    · split at hok
      · cases hok
      · split at hok
        · cases hok
        · split at hok
          · cases hok
          · split at hok
            · cases hok
            · split at hok
              · cases hok
              · cases hok
                exact ⟨hm, rfl, rfl, rfl⟩

/-- Coercing a list of string JSON values yields the strings back. -/
theorem jStrList_map_str (l : List String) :
    jStrList (l.map JValue.str) = .ok l := by
  induction l with
  | nil => rfl
  | cons x xs ih => simp [jStrList, jvalAsStr, bind, Except.bind, ih]

/-- Joining an array of string JSON values is `String.intercalate`. -/
theorem pyJoin_arr_map_str (sep : String) (l : List String) :
    pyJoin sep (.arr (l.map JValue.str)) = .ok (String.intercalate sep l) := by
  simp [pyJoin, jStrList_map_str, bind, Except.bind]

/-- C1: an absent `max_score` defaults to 1 and the evaluation returns
normally, but a present `max_score = 0` is NOT coerced to 1: the
`final_score / max_score` division at line 190 of src/evaluator.py
raises an uncaught `ZeroDivisionError`, contradicting the claimed
division guard. -/
theorem C1_division_guard :
    (evaluateParsed ⟨some "q1", some "", some "Medium", none⟩ (some jC1)).map
        (fun r => r.max_score) = .ok 1
    ∧ evaluateParsed ⟨some "q1", some "", some "Medium", some 0⟩ (some jC1)
        = .error .zeroDivisionError := by
  constructor
  · rw [evaluateParsed_ok_of ⟨some "q1", some "", some "Medium", none⟩ (some jC1) jC1
      (.num 80) (.num 70) (.num 60) (.num 90) 80 70 60 90 ⟨40, 25, 15, 20⟩ 1
      _ _ _ _ _ _ rfl rfl rfl rfl rfl (by decide) rfl (by norm_num)
      rfl rfl rfl rfl rfl rfl]
    rfl
  · rfl

/-- C2: a response that parses as JSON but lacks a top-level dimension
key (here: the empty object) is NOT fully defaulted: score extraction
defaults to 0, but `result["intent"]` inside `_generate_remarks`
(line 274) raises an uncaught `KeyError`, so no result is returned. -/
theorem C2_missing_dimension_key_raises :
    evaluateParsed ⟨some "q2", some "", some "Medium", some 10⟩ (some (.obj []))
      = .error (.keyError "intent") := by rfl

/-- C3 counterexample: content such as `[1, 2, 3]` is valid JSON, hence
fails to parse as the four-dimension structure, yet the fallback is not
substituted: `result.get("intent", {})` on a list raises an uncaught
`AttributeError` (only `JSONDecodeError` and `KeyError` are caught). -/
theorem C3_nonobject_json_propagates :
    evaluateParsed ⟨some "q3", some "", some "Medium", some 10⟩
      (some (.arr [.num 1, .num 2, .num 3])) = .error .attributeError := by rfl

/-- C3 (amended): when the content fails to parse as JSON at all
(`json.loads` raises), the fixed fallback judgment is substituted: all
four dimension scores are 50, intent's understood flag is true, all
auxiliary lists are empty, every note is "Parse error", and a complete
result is returned. -/
theorem C3_parse_failure_fallback (q : QuestionData)
    (hm : q.max_score.getD 1 ≠ 0) :
    (evaluateParsed q none).map (fun r =>
        (r.intent_analysis, r.vocabulary_analysis, r.spelling_analysis,
         r.grammar_analysis, r.suggestions))
      = .ok (⟨50, .bool true, .arr [], .arr [], .str "Parse error"⟩,
             ⟨50, .arr [], .arr [], .str "Parse error"⟩,
             ⟨50, .arr [], .arr [], .str "Parse error"⟩,
             ⟨50, .arr [], .arr [], .str "Parse error"⟩,
             "Keep up the good work!") := by
  rw [evaluateParsed_ok_of q none fallbackResult
      (.num 50) (.num 50) (.num 50) (.num 50) 50 50 50 50 _ _ _ _ _ _ _ _
      rfl rfl rfl rfl rfl rfl rfl hm rfl rfl rfl rfl rfl rfl]
  rfl

/-- C3 witness: the fallback result at a concrete question. -/
theorem C3_parse_failure_fallback_witness :
    (evaluateParsed ⟨some "q3w", some "", some "Medium", some 10⟩ none).map (fun r =>
        (r.intent_analysis, r.vocabulary_analysis, r.spelling_analysis,
         r.grammar_analysis, r.suggestions))
      = .ok (⟨50, .bool true, .arr [], .arr [], .str "Parse error"⟩,
             ⟨50, .arr [], .arr [], .str "Parse error"⟩,
             ⟨50, .arr [], .arr [], .str "Parse error"⟩,
             ⟨50, .arr [], .arr [], .str "Parse error"⟩,
             "Keep up the good work!") :=
  C3_parse_failure_fallback ⟨some "q3w", some "", some "Medium", some 10⟩ (by decide)

/-- C4: the weight selector is a pure function of the two strings with
case-insensitive matching: "Hard"/"" gives the hard weights,
"easy"/"spelling practice" gives the easy weights with spelling 35 and
intent 30; the context rules are applied after the difficulty rule in
the fixed order comprehension-or-reading, spelling, grammar, with only
the first match applying, and the difficulty-adjusted weights standing
when none match. -/
theorem C4_weight_selector :
    _get_weights "Hard" "" = ⟨50, 25, 10, 15⟩
    ∧ _get_weights "easy" "spelling practice" = ⟨30, 20, 35, 25⟩
    ∧ (∀ d c, (strContains (pyLower c) "comprehension"
          || strContains (pyLower c) "reading") = true →
        _get_weights d c = ⟨50, 25, 10, 15⟩)
    ∧ (∀ d c, (strContains (pyLower c) "comprehension"
          || strContains (pyLower c) "reading") = false →
        strContains (pyLower c) "spelling" = true →
        _get_weights d c =
          { applyDifficulty (pyLower d) baseWeights with spelling := 35, intent := 30 })
    ∧ (∀ d c, (strContains (pyLower c) "comprehension"
          || strContains (pyLower c) "reading") = false →
        strContains (pyLower c) "spelling" = false →
        strContains (pyLower c) "grammar" = true →
        _get_weights d c =
          { applyDifficulty (pyLower d) baseWeights with grammar := 35, intent := 30 })
    ∧ (∀ d c, (strContains (pyLower c) "comprehension"
          || strContains (pyLower c) "reading") = false →
        strContains (pyLower c) "spelling" = false →
        strContains (pyLower c) "grammar" = false →
        _get_weights d c = applyDifficulty (pyLower d) baseWeights) := by
  refine ⟨by decide, by decide, ?_, ?_, ?_, ?_⟩
  · intro d c h
    simp [_get_weights, applyContext, h]
  · intro d c h hsp
    simp [_get_weights, applyContext, h, hsp]
  · intro d c h hsp hg
    simp [_get_weights, applyContext, h, hsp, hg]
  · intro d c h hsp hg
    simp [_get_weights, applyContext, h, hsp, hg]

/-- C4 witness: the precedence rules applied at concrete inputs. -/
theorem C4_weight_selector_witness :
    _get_weights "Medium" "reading drill about spelling" = ⟨50, 25, 10, 15⟩
    ∧ _get_weights "hard" "spelling and grammar" = ⟨30, 25, 35, 15⟩
    ∧ _get_weights "easy" "grammar focus" = ⟨30, 20, 20, 35⟩
    ∧ _get_weights "HARD" "math" = ⟨50, 25, 10, 15⟩ := by
  refine ⟨?_, ?_, ?_, ?_⟩
  · rw [C4_weight_selector.2.2.1 "Medium" "reading drill about spelling" (by decide)]
  · rw [C4_weight_selector.2.2.2.1 "hard" "spelling and grammar" (by decide) (by decide)]
    decide
  · rw [C4_weight_selector.2.2.2.2.1 "easy" "grammar focus" (by decide) (by decide) (by decide)]
    decide
  · rw [C4_weight_selector.2.2.2.2.2 "HARD" "math" (by decide) (by decide) (by decide)]
    decide

/-- C5: the weighted average is the sum of score-times-weight over the
four dimensions divided by 100, the final score is the weighted
average over 100 times `max_score` (the returned field being its
2-decimal rounding), and the spec's end-to-end scenario (difficulty
"Medium", empty context, `max_score` 10, scores 80/70/60/90) returns
`final_score` 7.65 and `percentage` 76.5. -/
theorem C5_weighted_scoring :
    (∀ i v s g w, weighted_avg_of i v s g w =
      (i * w.intent + v * w.vocabulary + s * w.spelling + g * w.grammar) / 100)
    ∧ (∀ avg m, final_score_of avg m = avg / 100 * m)
    ∧ (∀ (q : QuestionData) (parsed : Option JValue)
        (result jI jV jS jG : JValue) (i v s g : ℚ) (r : EvalResult),
        tryParse parsed = .ok (result, jI, jV, jS, jG) →
        jnum jI = .ok i → jnum jV = .ok v → jnum jS = .ok s → jnum jG = .ok g →
        evaluateParsed q parsed = .ok r →
        r.final_score = pyRound (weighted_avg_of i v s g
          (_get_weights (q.difficulty.getD "Medium") (q.context.getD ""))
          / 100 * (q.max_score.getD 1)) 2)
    ∧ (evaluateParsed qC5 (some jC5)).map (fun r => (r.final_score, r.percentage))
        = .ok (7.65, 76.5) := by
  refine ⟨fun _ _ _ _ _ => rfl, fun _ _ => rfl, ?_, ?_⟩
  · intro q parsed result jI jV jS jG i v s g r h1 h2 h3 h4 h5 hok
    exact (evaluateParsed_fields q parsed result jI jV jS jG i v s g r
      h1 h2 h3 h4 h5 hok).2.2.1
  · rw [evaluateParsed_ok_of qC5 (some jC5) jC5
      (.num 80) (.num 70) (.num 60) (.num 90) 80 70 60 90 ⟨40, 25, 15, 20⟩ 10
      _ _ _ _ _ _ rfl rfl rfl rfl rfl (by decide) rfl (by norm_num)
      rfl rfl rfl rfl rfl rfl]
    simp only [Except.map]
    norm_num [pyRound, roundHalfEven, weighted_avg_of, final_score_of]

/-- C5 witness: the general final-score formula applied to the
end-to-end scenario. -/
theorem C5_weighted_scoring_witness :
    (evaluateParsed qC5 (some jC5)).map (fun r => r.final_score)
      = .ok (pyRound ((80 * 40 + 70 * 25 + 60 * 15 + 90 * 20 : ℚ) / 100 / 100 * 10) 2) := by
  have hok := evaluateParsed_ok_of qC5 (some jC5) jC5
    (.num 80) (.num 70) (.num 60) (.num 90) 80 70 60 90 ⟨40, 25, 15, 20⟩ 10
    _ _ _ _ _ _ rfl rfl rfl rfl rfl (by decide) rfl (by norm_num)
    rfl rfl rfl rfl rfl rfl
  have hgw : _get_weights (qC5.difficulty.getD "Medium") (qC5.context.getD "")
      = ⟨40, 25, 15, 20⟩ := by decide
  have hf := C5_weighted_scoring.2.2.1 qC5 (some jC5) jC5 _ _ _ _ 80 70 60 90 _
    rfl rfl rfl rfl rfl hok
  have hstep : ∀ e : EvalResult,
      Except.map (fun r : EvalResult => r.final_score)
        (Except.ok (ε := PyError) e) = Except.ok e.final_score := fun _ => rfl
  rw [hok, hstep, hf, hgw]
  rfl

/-- C6: for scores in [0, 100] and a non-negative weight set summing to
100, the computed final score lies between 0 and `max_score`. -/
theorem C6_final_score_bounds (i v s g m : ℚ) (w : WeightSet)
    (hi0 : 0 ≤ i) (hi1 : i ≤ 100) (hv0 : 0 ≤ v) (hv1 : v ≤ 100)
    (hs0 : 0 ≤ s) (hs1 : s ≤ 100) (hg0 : 0 ≤ g) (hg1 : g ≤ 100)
    (hwi : 0 ≤ w.intent) (hwv : 0 ≤ w.vocabulary)
    (hws : 0 ≤ w.spelling) (hwg : 0 ≤ w.grammar)
    (hsum : w.intent + w.vocabulary + w.spelling + w.grammar = 100)
    (hm : 0 ≤ m) :
    0 ≤ final_score_of (weighted_avg_of i v s g w) m
    ∧ final_score_of (weighted_avg_of i v s g w) m ≤ m := by
  have hS0 : 0 ≤ i * w.intent + v * w.vocabulary + s * w.spelling + g * w.grammar :=
    add_nonneg (add_nonneg (add_nonneg (mul_nonneg hi0 hwi) (mul_nonneg hv0 hwv))
      (mul_nonneg hs0 hws)) (mul_nonneg hg0 hwg)
  have hS1 : i * w.intent + v * w.vocabulary + s * w.spelling + g * w.grammar ≤ 10000 := by
    nlinarith [mul_le_mul_of_nonneg_right hi1 hwi, mul_le_mul_of_nonneg_right hv1 hwv,
      mul_le_mul_of_nonneg_right hs1 hws, mul_le_mul_of_nonneg_right hg1 hwg]
  have hrw : final_score_of (weighted_avg_of i v s g w) m =
      (i * w.intent + v * w.vocabulary + s * w.spelling + g * w.grammar) / 10000 * m := by
    unfold final_score_of weighted_avg_of
    ring
  rw [hrw]
  constructor
  · exact mul_nonneg (div_nonneg hS0 (by norm_num)) hm
  · have hle : (i * w.intent + v * w.vocabulary + s * w.spelling + g * w.grammar) / 10000 ≤ 1 := by
      rw [div_le_one (by norm_num : (0 : ℚ) < 10000)]
      exact hS1
    calc (i * w.intent + v * w.vocabulary + s * w.spelling + g * w.grammar) / 10000 * m
        ≤ 1 * m := mul_le_mul_of_nonneg_right hle hm
      _ = m := one_mul m

/-- C6 witness: the bounds at concrete scores and the default weights. -/
theorem C6_final_score_bounds_witness :
    0 ≤ final_score_of (weighted_avg_of 80 70 60 90 ⟨40, 25, 15, 20⟩) 10
    ∧ final_score_of (weighted_avg_of 80 70 60 90 ⟨40, 25, 15, 20⟩) 10 ≤ 10 :=
  C6_final_score_bounds 80 70 60 90 10 ⟨40, 25, 15, 20⟩
    (by norm_num) (by norm_num) (by norm_num) (by norm_num)
    (by norm_num) (by norm_num) (by norm_num) (by norm_num)
    (by norm_num) (by norm_num) (by norm_num) (by norm_num)
    (by norm_num) (by norm_num)

/-- C7 counterexample: a dimension score of 150 (outside [0, 100]) is
neither clamped nor defaulted: it is stored as `intent_match_score` and
enters the weighted average, yielding `final_score` 6 of 10 where a
clamped score of 100 would yield 4. -/
theorem C7_unclamped_score_counterexample :
    (evaluateParsed ⟨some "q7", some "", some "Medium", some 10⟩ (some jC7)).map
        (fun r => (r.intent_analysis.intent_match_score, r.final_score)) = .ok (150, 6)
    ∧ ¬((150 : ℚ) ≤ 100) := by
  constructor
  · rw [evaluateParsed_ok_of ⟨some "q7", some "", some "Medium", some 10⟩ (some jC7) jC7
      (.num 150) (.num 0) (.num 0) (.num 0) 150 0 0 0 ⟨40, 25, 15, 20⟩ 10
      _ _ _ _ _ _ rfl rfl rfl rfl rfl (by decide) rfl (by norm_num)
      rfl rfl rfl rfl rfl rfl]
    norm_num [Except.map, pyRound, roundHalfEven, weighted_avg_of, final_score_of]
  · norm_num

/-- C7 (amended): score extraction (lines 152-155) defaults a missing
dimension or score key to 0, and passes any present numeric score
through unchanged — there is no clamping into [0, 100]. -/
theorem C7_amended_default_without_clamp :
    (∀ x : ℚ, tryParse (some (.obj [("intent", .obj [("score", .num x)])]))
      = .ok (.obj [("intent", .obj [("score", .num x)])], .num x, .num 0, .num 0, .num 0))
    ∧ tryParse (some (.obj [("intent", .obj [])]))
      = .ok (.obj [("intent", .obj [])], .num 0, .num 0, .num 0, .num 0)
    ∧ tryParse (some (.obj []))
      = .ok (.obj [], .num 0, .num 0, .num 0, .num 0) :=
  ⟨fun _ => rfl, rfl, rfl⟩

/-- C8 counterexample: with intent score 30.75 on a `max_score` of 1
the raw final score is 0.123, so the returned `percentage` is 12.3,
while recomputing the percentage from the 2-decimal-rounded
`final_score` field 0.12 gives 12.0 — the claimed relation fails. -/
theorem C8_percentage_double_rounding_counterexample :
    (evaluateParsed qC8 (some jC8)).map
        (fun r => (r.final_score, r.percentage, pyRound (100 * r.final_score / r.max_score) 1))
      = .ok (0.12, 12.3, 12)
    ∧ (12.3 : ℚ) ≠ 12 := by
  constructor
  · rw [evaluateParsed_ok_of qC8 (some jC8) jC8
      (.num 30.75) (.num 0) (.num 0) (.num 0) 30.75 0 0 0 ⟨40, 25, 15, 20⟩ 1
      _ _ _ _ _ _ rfl rfl rfl rfl rfl (by decide) rfl (by norm_num)
      rfl rfl rfl rfl rfl rfl]
    norm_num [Except.map, pyRound, roundHalfEven, weighted_avg_of, final_score_of]
  · norm_num

/-- C8 (amended): the returned `percentage` is the 1-decimal rounding
of the percentage computed from the UN-rounded final score (line 190),
not from the rounded `final_score` field. -/
theorem C8_percentage_from_unrounded (q : QuestionData) (parsed : Option JValue)
    (result jI jV jS jG : JValue) (i v s g : ℚ) (r : EvalResult)
    (h1 : tryParse parsed = .ok (result, jI, jV, jS, jG))
    (h2 : jnum jI = .ok i) (h3 : jnum jV = .ok v)
    (h4 : jnum jS = .ok s) (h5 : jnum jG = .ok g)
    (hok : evaluateParsed q parsed = .ok r) :
    r.percentage = pyRound (final_score_of (weighted_avg_of i v s g
        (_get_weights (q.difficulty.getD "Medium") (q.context.getD "")))
        (q.max_score.getD 1) / (q.max_score.getD 1) * 100) 1 :=
  (evaluateParsed_fields q parsed result jI jV jS jG i v s g r h1 h2 h3 h4 h5 hok).2.2.2

/-- C8 witness: the un-rounded percentage relation at the
counterexample input. -/
theorem C8_percentage_from_unrounded_witness :
    (evaluateParsed qC8 (some jC8)).map (fun r => r.percentage)
      = .ok (pyRound (final_score_of (weighted_avg_of 30.75 0 0 0
          (_get_weights "Medium" "")) 1 / 1 * 100) 1) := by
  have hok := evaluateParsed_ok_of qC8 (some jC8) jC8
    (.num 30.75) (.num 0) (.num 0) (.num 0) 30.75 0 0 0 ⟨40, 25, 15, 20⟩ 1
    _ _ _ _ _ _ rfl rfl rfl rfl rfl (by decide) rfl (by norm_num)
    rfl rfl rfl rfl rfl rfl
  have hp := C8_percentage_from_unrounded qC8 (some jC8) jC8 _ _ _ _ 30.75 0 0 0 _
    rfl rfl rfl rfl rfl hok
  have hstep : ∀ e : EvalResult, Except.map (fun r : EvalResult => r.percentage)
      (Except.ok (ε := PyError) e) = Except.ok e.percentage := fun _ => rfl
  rw [hok, hstep, hp]
  rfl

/-- Dict access lemmas on the suggestion-input shape, with the list
contents symbolic. -/
theorem dictIndex_mk_intent (missed improve : List String)
    (se : List (String × String)) (ge : List (Option String)) :
    dictIndex (mkSuggestInput missed improve se ge) "intent"
      = .ok (.obj [("score", .num 50), ("concepts_missed", .arr (missed.map .str))]) := rfl

theorem dictIndex_mk_vocabulary (missed improve : List String)
    (se : List (String × String)) (ge : List (Option String)) :
    dictIndex (mkSuggestInput missed improve se ge) "vocabulary"
      = .ok (.obj [("score", .num 50), ("improve", .arr (improve.map .str))]) := rfl

theorem dictIndex_mk_spelling (missed improve : List String)
    (se : List (String × String)) (ge : List (Option String)) :
    dictIndex (mkSuggestInput missed improve se ge) "spelling"
      = .ok (.obj [("score", .num 50), ("errors", .arr (se.map mkSpellErr))]) := rfl

theorem dictIndex_mk_grammar (missed improve : List String)
    (se : List (String × String)) (ge : List (Option String)) :
    dictIndex (mkSuggestInput missed improve se ge) "grammar"
      = .ok (.obj [("score", .num 50), ("errors", .arr (ge.map mkGrammarErr))]) := rfl

theorem dictGet_mk_missed (l : List JValue) :
    dictGet (.obj [("score", .num 50), ("concepts_missed", .arr l)])
      "concepts_missed" (.arr []) = .ok (.arr l) := rfl

theorem dictGet_mk_improve (l : List JValue) :
    dictGet (.obj [("score", .num 50), ("improve", .arr l)])
      "improve" (.arr []) = .ok (.arr l) := rfl

theorem dictGet_mk_errors (l : List JValue) :
    dictGet (.obj [("score", .num 50), ("errors", .arr l)])
      "errors" (.arr []) = .ok (.arr l) := rfl

theorem dictGet_spellErr_word (p : String × String) :
    dictGet (mkSpellErr p) "word" .null = .ok (.str p.1) := rfl

theorem dictGet_spellErr_correct (p : String × String) :
    dictGet (mkSpellErr p) "correct" .null = .ok (.str p.2) := rfl

theorem dictGet_grammarErr_fix (o : Option String) :
    dictGet (mkGrammarErr o) "fix" (.str "Check structure")
      = .ok (.str (o.getD "Check structure")) := by
  cases o <;> rfl

/-- Taking a prefix of string JSON values coerces to the string
prefix. -/
theorem jStrList_take_map (n : ℕ) (l : List String) :
    jStrList (List.take n (List.map JValue.str l)) = .ok (List.take n l) := by
  rw [← List.map_take]
  exact jStrList_map_str _

/-- The suggestion generator on the generic input shape equals the
fragment description: first three qualifying fragments joined by
`" | "`, or the fixed fallback sentence. -/
theorem generate_suggestions_mk (missed improve : List String)
    (se : List (String × String)) (ge : List (Option String)) :
    _generate_suggestions (mkSuggestInput missed improve se ge)
      = .ok (if (suggestionFragments missed improve se ge).isEmpty
             then "Keep up the good work!"
             else String.intercalate " | "
               ((suggestionFragments missed improve se ge).take 3)) := by
  simp only [_generate_suggestions, dictIndex_mk_intent, dictIndex_mk_vocabulary,
    dictIndex_mk_spelling, dictIndex_mk_grammar, dictGet_mk_missed, dictGet_mk_improve,
    dictGet_mk_errors, bind, Except.bind]
  cases missed with
  | nil =>
    cases improve with
    | nil =>
      cases se with
      | nil =>
        cases ge with
        | nil => rfl
        | cons g0 gs =>
          simp [jtruthy, pyIndex0, dictGet_grammarErr_fix, pyStr, suggestionFragments,
            bind, Except.bind, pure, Except.pure]
      | cons s0 ss =>
        cases ge <;>
          simp [jtruthy, pyIndex0, dictGet_spellErr_word, dictGet_spellErr_correct,
            dictGet_grammarErr_fix, pyStr, suggestionFragments, bind, Except.bind,
            pure, Except.pure]
    | cons i0 is =>
      cases se <;> cases ge <;>
        simp [jtruthy, pyIndex0, dictGet_spellErr_word, dictGet_spellErr_correct,
          dictGet_grammarErr_fix, pyStr, suggestionFragments, bind, Except.bind,
          pure, Except.pure]
  | cons m0 ms =>
    cases improve <;> cases se <;> cases ge <;>
      simp [jtruthy, pySlice, pyJoin, jStrList, jvalAsStr, jStrList_take_map, pyIndex0,
        dictGet_spellErr_word, dictGet_spellErr_correct, dictGet_grammarErr_fix,
        pyStr, suggestionFragments, bind, Except.bind, pure, Except.pure]

/-- C9: the suggestions generator evaluates its four fragment rules in
the fixed order concepts-missed, vocabulary-improve, spelling-errors,
grammar-errors, includes a fragment only when its source list is
non-empty, keeps at most the first 3 qualifying fragments joined by
`" | "` (so the grammar fragment is dropped when all four qualify), and
returns exactly "Keep up the good work!" when no fragment qualifies. -/
theorem C9_suggestion_rules :
    (∀ (missed improve : List String) (se : List (String × String))
        (ge : List (Option String)),
      _generate_suggestions (mkSuggestInput missed improve se ge)
        = .ok (if (suggestionFragments missed improve se ge).isEmpty
               then "Keep up the good work!"
               else String.intercalate " | "
                 ((suggestionFragments missed improve se ge).take 3)))
    ∧ (∀ (m0 : String) (ms : List String) (i0 : String) (is0 : List String)
        (s0 : String × String) (ss : List (String × String))
        (g0 : Option String) (gs : List (Option String)),
        _generate_suggestions (mkSuggestInput (m0 :: ms) (i0 :: is0) (s0 :: ss) (g0 :: gs))
          = .ok (String.intercalate " | "
              ["Include: " ++ String.intercalate ", " ((m0 :: ms).take 2),
               "Word tip: " ++ i0,
               "Spelling: '" ++ s0.1 ++ "' → '" ++ s0.2 ++ "'"]))
    ∧ _generate_suggestions (mkSuggestInput [] [] [] []) = .ok "Keep up the good work!" := by
  refine ⟨generate_suggestions_mk, ?_, rfl⟩
  intro m0 ms i0 is0 s0 ss g0 gs
  rw [generate_suggestions_mk]
  simp [suggestionFragments]

/-- C10: for every difficulty, a context containing "spelling" (and
neither "comprehension" nor "reading") selects weights whose sum
exceeds 100 — 110 for difficulty "Medium" — and consequently a judgment
with all four dimension scores equal to 100 yields a final score
strictly greater than `max_score`. -/
theorem C10_spelling_context_weight_sum (d c : String) (m : ℚ)
    (hsp : strContains (pyLower c) "spelling" = true)
    (hco : strContains (pyLower c) "comprehension" = false)
    (hre : strContains (pyLower c) "reading" = false)
    (hm : 0 < m) :
    100 < (_get_weights d c).intent + (_get_weights d c).vocabulary
      + (_get_weights d c).spelling + (_get_weights d c).grammar
    ∧ (_get_weights "Medium" "spelling").intent
      + (_get_weights "Medium" "spelling").vocabulary
      + (_get_weights "Medium" "spelling").spelling
      + (_get_weights "Medium" "spelling").grammar = 110
    ∧ m < final_score_of (weighted_avg_of 100 100 100 100 (_get_weights d c)) m := by
  have hW : _get_weights d c
      = { applyDifficulty (pyLower d) baseWeights with spelling := 35, intent := 30 } := by
    simp [_get_weights, applyContext, hsp, hco, hre]
  have hsum : 100 < (_get_weights d c).intent + (_get_weights d c).vocabulary
      + (_get_weights d c).spelling + (_get_weights d c).grammar := by
    rw [hW]
    simp only [applyDifficulty, baseWeights]
    split_ifs <;> norm_num
  refine ⟨hsum, ?_, ?_⟩
  · rw [show _get_weights "Medium" "spelling" = ⟨30, 25, 35, 20⟩ from by decide]
    norm_num
  · have hkey : final_score_of (weighted_avg_of 100 100 100 100 (_get_weights d c)) m
        = ((_get_weights d c).intent + (_get_weights d c).vocabulary
          + (_get_weights d c).spelling + (_get_weights d c).grammar) / 100 * m := by
      unfold final_score_of weighted_avg_of
      ring
    rw [hkey]
    have h1 : 1 < ((_get_weights d c).intent + (_get_weights d c).vocabulary
        + (_get_weights d c).spelling + (_get_weights d c).grammar) / 100 :=
      (one_lt_div (by norm_num)).mpr hsum
    calc m = 1 * m := (one_mul m).symm
      _ < _ := mul_lt_mul_of_pos_right h1 hm

/-- C10 witness: difficulty "Medium", context "spelling", and a
`max_score` of 10. -/
theorem C10_spelling_context_weight_sum_witness :
    100 < (_get_weights "Medium" "spelling").intent
      + (_get_weights "Medium" "spelling").vocabulary
      + (_get_weights "Medium" "spelling").spelling
      + (_get_weights "Medium" "spelling").grammar
    ∧ (_get_weights "Medium" "spelling").intent
      + (_get_weights "Medium" "spelling").vocabulary
      + (_get_weights "Medium" "spelling").spelling
      + (_get_weights "Medium" "spelling").grammar = 110
    ∧ (10 : ℚ) < final_score_of (weighted_avg_of 100 100 100 100
        (_get_weights "Medium" "spelling")) 10 :=
  C10_spelling_context_weight_sum "Medium" "spelling" 10
    (by decide) (by decide) (by decide) (by norm_num)
